import Mathlib

/-!
Verification of the routing and orchestration layer of a map-services agent.

The development shallowly embeds, from the Python source:
- the argument extractors and the deterministic router
  (`AssistantAgent._route_query` and its `_extract_*` helpers in `agent.py`),
- the tool dispatchers (`InteractiveAgent.call_tool` in `interactive_agent.py`
  and `AssistantAgent._call_geo_tool` / `_call_routing_tool` /
  `_call_weather_tool` in `agent.py`) together with
  `AssistantAgent.process_query`,
- the orchestration loop (`InteractiveAgent.chat`).

Modelling conventions:
- Python dict/JSON values are modelled by `JValue`; argument dicts are
  association lists in insertion order.
- Python floats are modelled by `Rat`.  Every number the core manipulates is
  produced by parsing a decimal literal (either from the source text or from a
  matched substring), and every claim compares two numbers produced by the same
  parse, so the exact-rational model preserves each claim's content.
- Exceptions are modelled by `Except String`: a provider method returning
  `.error e` models the method raising an exception whose `str` is `e`.
  A `try/except Exception` block is the surrounding `match` that turns
  `.error e` into the error payload the source builds.
- Dict key access `arguments[k]` is `lookupArg`, which yields the `KeyError`
  message `str(KeyError(k)) = "'k'"` when the key is absent.
- Provider invocations are logged so that "the provider was (not) called" is a
  statement about the log.
-/

/-- JSON-like values: the payloads exchanged with providers. -/
inductive JValue where
  | str (s : String)
  | num (q : Rat)
  | bool (b : Bool)
  | null
  | obj (fields : List (String × JValue))
  | arr (items : List JValue)

/-- An argument mapping (Python `Dict[str, Any]`), keys in insertion order. -/
abbrev Args : Type := List (String × JValue)

/-- Dict lookup, `None` when the key is absent. -/
def lookupArg (args : Args) (k : String) : Option JValue :=
  (List.find? (fun kv => kv.1 == k) args).map (fun kv => kv.2)

/-- `str(KeyError(k))` in Python is the key wrapped in single quotes. -/
def keyErrStr (k : String) : String := "\x27" ++ k ++ "\x27"

/-- The error payload `{"error": e}` built by the dispatchers. -/
def errObj (e : String) : JValue := JValue.obj [("error", JValue.str e)]

/-- Keys of an object payload. -/
def jKeys : JValue → List String
  | JValue.obj fields => fields.map Prod.fst
  | _ => []

/-- Field lookup on an object payload. -/
def jLookup : JValue → String → Option JValue
  | JValue.obj fields, k => (List.find? (fun kv => kv.1 == k) fields).map (fun kv => kv.2)
  | _, _ => none

/-! ### Character and string utilities (ASCII, as exercised by the source) -/

/-- Python `\s` on the ASCII range: space, tab, newline, CR, FF, VT. -/
def pyIsSpace (c : Char) : Bool :=
  c = ' ' || c = '\t' || c = '\n' || c = '\r' || c = '\x0b' || c = '\x0c'

/-- `str.lower()` (ASCII letters, which is all the source's keywords use). -/
def toLowerStr (s : String) : String := String.mk (s.toList.map Char.toLower)

/-- Is `p` a prefix of `h` (character lists)? -/
def isPfxL : List Char → List Char → Bool
  | [], _ => true
  | _ :: _, [] => false
  | p :: ps, h :: hs => p == h && isPfxL ps hs

/-- Index of the first occurrence of `p` in `h`, scanning left to right
(`str.index` / the `in` operator). -/
def idxOfL (p : List Char) : List Char → Nat → Option Nat
  | [], i => if isPfxL p [] then some i else none
  | h :: hs, i => if isPfxL p (h :: hs) then some i else idxOfL p hs (i + 1)

/-- First index of substring `p` in `s`. -/
def indexOfSub (s p : String) : Option Nat := idxOfL p.toList s.toList 0

/-- Python `p in s` substring test. -/
def containsSub (s p : String) : Bool := (indexOfSub s p).isSome

/-- Python `str.strip()` (whitespace from both ends). -/
def pyStrip (s : String) : String :=
  String.mk (((s.toList.dropWhile pyIsSpace).reverse.dropWhile pyIsSpace).reverse)

/-- Drop the first `n` characters (Python slice `s[n:]`). -/
def strDrop (s : String) (n : Nat) : String := String.mk (s.toList.drop n)

/-! ### Decimal number scanning

The coordinate regex is `(-?\d+\.?\d*)\s*[,]\s*(-?\d+\.?\d*)`.  For this
pattern, greedy matching without backtracking agrees with Python `re`:
shrinking a greedy `\d+`/`\.?`/`\d*` always leaves a digit or a dot at the
boundary, which can never satisfy the following `\s*[,]` or end-of-pattern,
so the first (greedy) attempt is the only possible one.
-/

/-- Value of a digit string (digits only). -/
def natOfDigits (ds : List Char) : Nat :=
  ds.foldl (fun n c => 10 * n + (c.toNat - '0'.toNat)) 0

/-- Model of Python `float()` on strings matched by `-?\d+\.?\d*`:
optional sign, integer part, optional fraction. -/
def parseDec (s : String) : Rat :=
  match s.toList with
  | '-' :: rest => - parseDecCore rest
  | cs => parseDecCore cs
where
  parseDecCore (cs : List Char) : Rat :=
    let intPart := cs.takeWhile Char.isDigit
    let rest := cs.dropWhile Char.isDigit
    let frac := match rest with
      | '.' :: fs => fs.takeWhile Char.isDigit
      | _ => []
    (natOfDigits intPart : Rat) + (natOfDigits frac : Rat) / ((10 : Rat) ^ frac.length)

/-- Greedy match of `-?\d+\.?\d*` at the head; returns the matched group and
the rest. -/
def matchNumAt (cs : List Char) : Option (List Char × List Char) :=
  let (sign, cs1) := match cs with
    | '-' :: rest => (['-'], rest)
    | _ => (([] : List Char), cs)
  let intPart := cs1.takeWhile Char.isDigit
  if intPart.isEmpty then none
  else
    let cs2 := cs1.dropWhile Char.isDigit
    match cs2 with
    | '.' :: cs3 =>
        let frac := cs3.takeWhile Char.isDigit
        some (sign ++ intPart ++ '.' :: frac, cs3.dropWhile Char.isDigit)
    | _ => some (sign ++ intPart, cs2)

/-- Greedy match of the full pair pattern
`(-?\d+\.?\d*)\s*[,]\s*(-?\d+\.?\d*)` at the head; returns both groups and
the rest of the input. -/
def matchPairAt (cs : List Char) : Option (String × String × List Char) :=
  match matchNumAt cs with
  | none => none
  | some (g1, r1) =>
    match r1.dropWhile pyIsSpace with
    | ',' :: r2 =>
      match matchNumAt (r2.dropWhile pyIsSpace) with
      | none => none
      | some (g2, r3) => some (String.mk g1, String.mk g2, r3)
    | _ => none

/-- `re.search` for the pair pattern: first match in left-to-right scan. -/
def searchPair : List Char → Option (String × String)
  | [] => none
  | c :: rest =>
    match matchPairAt (c :: rest) with
    | some (g1, g2, _) => some (g1, g2)
    | none => searchPair rest

/-- `re.findall` scanning for the pair pattern: leftmost, non-overlapping,
resuming after each match.  Every match consumes at least three characters,
so `fuel` initialized to the input length never runs out before the input
does. -/
def findPairsAux : Nat → List Char → List (String × String)
  | 0, _ => []
  | _ + 1, [] => []
  | fuel + 1, c :: rest =>
    match matchPairAt (c :: rest) with
    | some (g1, g2, r) => (g1, g2) :: findPairsAux fuel r
    | none => findPairsAux fuel rest

/-- All coordinate-pair matches of the query, in textual order. -/
def findPairs (q : String) : List (String × String) :=
  findPairsAux q.toList.length q.toList

/-! ### Tile scanning

Regex `tile[_\s]*(\d+)[,\s]+(\d+)[,\s]+zoom[_\s]*(\d+)` on the lowered
query.  All quantified classes here are disjoint from what follows them
(digits vs. separators vs. the literal `zoom`), so greedy matching without
backtracking again agrees with Python `re`.
-/

/-- Drop the literal `p` from the head of `cs`, when it is a prefix. -/
def dropLit (p : List Char) (cs : List Char) : Option (List Char) :=
  if isPfxL p cs then some (cs.drop p.length) else none

/-- Take a nonempty run of digits from the head. -/
def takeDigits1 (cs : List Char) : Option (Nat × List Char) :=
  let ds := cs.takeWhile Char.isDigit
  if ds.isEmpty then none else some (natOfDigits ds, cs.dropWhile Char.isDigit)

/-- Take a nonempty run of characters of class `cl` from the head. -/
def takeClass1 (cl : Char → Bool) (cs : List Char) : Option (List Char) :=
  match cs with
  | c :: rest => if cl c then some ((c :: rest).dropWhile cl) else none
  | [] => none

/-- Match the tile pattern at the head of the (lowered) input. -/
def matchTileAt (cs : List Char) : Option (Nat × Nat × Nat) :=
  match dropLit ['t','i','l','e'] cs with
  | none => none
  | some r1 =>
    let r2 := r1.dropWhile (fun c => c = '_' || pyIsSpace c)
    match takeDigits1 r2 with
    | none => none
    | some (x, r3) =>
      match takeClass1 (fun c => c = ',' || pyIsSpace c) r3 with
      | none => none
      | some r4 =>
        match takeDigits1 r4 with
        | none => none
        | some (y, r5) =>
          match takeClass1 (fun c => c = ',' || pyIsSpace c) r5 with
          | none => none
          | some r6 =>
            match dropLit ['z','o','o','m'] r6 with
            | none => none
            | some r7 =>
              let r8 := r7.dropWhile (fun c => c = '_' || pyIsSpace c)
              match takeDigits1 r8 with
              | none => none
              | some (z, _) => some (x, y, z)

/-- `re.search` for the tile pattern. -/
def searchTile : List Char → Option (Nat × Nat × Nat)
  | [] => none
  | c :: rest =>
    match matchTileAt (c :: rest) with
    | some t => some t
    | none => searchTile rest

/-! ### `from <A> to <B>` scanning

Regex `from\s+(.+?)\s+to\s+(.+)` on the lowered query.  This pattern does
backtrack, so the scanner enumerates the quantifier choices in Python's
priority order: leftmost start, each `\s+` longest-first, the lazy `(.+?)`
shortest-first, and the final greedy `(.+)` is the maximal nonempty
newline-free run.
-/

/-- Length of the run of `cl`-characters at the head. -/
def runLen (cl : Char → Bool) (cs : List Char) : Nat := (cs.takeWhile cl).length

/-- Candidate lengths for a greedy `\s+`: longest first, at least one. -/
def greedyLens (maxLen : Nat) : List Nat :=
  (List.range maxLen).reverse.map (fun n => n + 1)

/-- Candidate lengths for a lazy `(.+?)`: shortest first, at least one. -/
def lazyLens (maxLen : Nat) : List Nat :=
  (List.range maxLen).map (fun n => n + 1)

/-- Match `\s+to\s+(.+)` against `t`: the part of the pattern after the lazy
group.  Returns group 2. -/
def matchToTail (t : List Char) : Option (List Char) :=
  (greedyLens (runLen pyIsSpace t)).findSome? fun m =>
    match dropLit ['t','o'] (t.drop m) with
    | none => none
    | some t4 =>
      (greedyLens (runLen pyIsSpace t4)).findSome? fun s =>
        let t5 := t4.drop s
        let g2 := t5.takeWhile (fun c => c ≠ '\n')
        if g2.isEmpty then none else some g2

/-- Match the whole pattern with the leading `from` already consumed. -/
def matchFromTo (t : List Char) : Option (List Char × List Char) :=
  (greedyLens (runLen pyIsSpace t)).findSome? fun j =>
    let t1 := t.drop j
    (lazyLens t1.length).findSome? fun k =>
      if (t1.take k).all (fun c => c ≠ '\n') then
        match matchToTail (t1.drop k) with
        | none => none
        | some g2 => some (t1.take k, g2)
      else none

/-- `re.search` for the `from ... to ...` pattern. -/
def searchFromTo : List Char → Option (List Char × List Char)
  | [] => none
  | c :: rest =>
    match (if isPfxL ['f','r','o','m'] (c :: rest)
           then matchFromTo ((c :: rest).drop 4) else none) with
    | some r => some r
    | none => searchFromTo rest

/-! ### Argument extractors (`AssistantAgent._extract_*`) -/

/-- Default coordinates (Beirut) used by `_extract_coords`. -/
def defLat : Rat := 33.8938
/-- Default coordinates (Beirut) used by `_extract_coords`. -/
def defLon : Rat := 35.5018
/-- Default end coordinates (Tripoli) used by `_extract_two_coords`. -/
def defEndLat : Rat := 34.4344
/-- Default end coordinates (Tripoli) used by `_extract_two_coords`. -/
def defEndLon : Rat := 35.8444

/-- `_extract_address`: strip the first matching known prefix from the start
of the query, else return the trimmed query. -/
def extract_address (q : String) : String :=
  match List.find? (fun p => isPfxL p.toList (toLowerStr q).toList)
      ["find", "geocode", "where is", "address of", "coordinates of"] with
  | some p => pyStrip (strDrop q p.length)
  | none => pyStrip q

/-- `_extract_location`: for the first listed prefix occurring anywhere in
the lowered query, return what follows its first occurrence, trimmed. -/
def extract_location (q : String) : String :=
  match List.findSome?
      (fun p => (indexOfSub (toLowerStr q) p).map (fun i => i + p.length))
      ["weather in", "weather at", "temperature in", "temperature at"] with
  | some j => pyStrip (strDrop q j)
  | none => pyStrip q

/-- `_extract_coords` as a pair: first coordinate-pair match, else the
Beirut default. -/
def extract_coords_pair (q : String) : Rat × Rat :=
  match searchPair q.toList with
  | some (g1, g2) => (parseDec g1, parseDec g2)
  | none => (defLat, defLon)

/-- `_extract_coords`: the `{"lat": .., "lon": ..}` dict. -/
def extract_coords (q : String) : Args :=
  [("lat", JValue.num (extract_coords_pair q).1),
   ("lon", JValue.num (extract_coords_pair q).2)]

/-- The fixed POI category list, in the order the source checks it. -/
def poiTypes : List String :=
  ["cafe", "restaurant", "park", "hotel", "museum", "hospital"]

/-- `_extract_location_for_poi`: category = first matching POI keyword
(else "place"), coordinates from `_extract_coords`. -/
def extract_location_for_poi (q : String) : Args :=
  let _location := extract_location q
  let coords := extract_coords_pair q
  let queryType := List.find? (fun t => containsSub (toLowerStr q) t) poiTypes
  [("query", JValue.str (queryType.getD "place")),
   ("lat", JValue.num coords.1),
   ("lon", JValue.num coords.2)]

/-- `_extract_two_locations`: `from <A> to <B>` on the lowered query, both
groups stripped; else the fixed named pair. -/
def extract_two_locations (q : String) : Args :=
  match searchFromTo (toLowerStr q).toList with
  | some (g1, g2) =>
      [("start", JValue.str (pyStrip (String.mk g1))),
       ("end", JValue.str (pyStrip (String.mk g2)))]
  | none => [("start", JValue.str "Beirut"), ("end", JValue.str "Tripoli")]

/-- `_extract_two_coords`: the source ignores its input ("Simplified - use
defaults") and always returns the fixed Beirut → Tripoli pair. -/
def extract_two_coords (_q : String) : Args :=
  [("start_lat", JValue.num defLat), ("start_lon", JValue.num defLon),
   ("end_lat", JValue.num defEndLat), ("end_lon", JValue.num defEndLon)]

/-- `_extract_tile_info`: tile pattern on the lowered query, else the fixed
tile triple. -/
def extract_tile_info (q : String) : Args :=
  match searchTile (toLowerStr q).toList with
  | some (x, y, z) =>
      [("tile_x", JValue.num x), ("tile_y", JValue.num y), ("zoom", JValue.num z)]
  | none =>
      [("tile_x", JValue.num 10), ("tile_y", JValue.num 7), ("zoom", JValue.num 5)]

/-! ### The deterministic router (`AssistantAgent._route_query`) -/

/-- Rule-1 keywords (geocoding). -/
def rule1Kws : List String := ["geocode", "address to", "coordinates of", "where is"]
/-- Rule-2 keywords (POI search). -/
def rule2Kws : List String := ["find", "search", "near", "poi", "cafe", "restaurant", "park"]
/-- Rule-3 keywords (routing). -/
def rule3Kws : List String := ["route", "directions", "how to get", "navigate", "distance"]
/-- Rule-4 keywords (weather). -/
def rule4Kws : List String := ["weather", "temperature", "forecast"]

/-- `any(word in query_lower for word in kws)`. -/
def anyKw (ql : String) (kws : List String) : Bool :=
  kws.any (fun k => containsSub ql k)

/-- `AssistantAgent._route_query`: ordered keyword rules mapping a query to
`(server, tool, arguments)`. -/
def route_query (q : String) : String × String × Args :=
  if anyKw (toLowerStr q) rule1Kws then
    if containsSub (toLowerStr q) "reverse"
        || containsSub (toLowerStr q) "coordinates to address" then
      ("geo", "reverse_geocode", extract_coords q)
    else
      ("geo", "geocode", [("address", JValue.str (extract_address q))])
  else if anyKw (toLowerStr q) rule2Kws then
    ("geo", "search_poi", extract_location_for_poi q)
  else if anyKw (toLowerStr q) rule3Kws then
    if containsSub (toLowerStr q) "fastest"
        || containsSub (toLowerStr q) "quickest" then
      ("routing", "fastest_route", extract_two_locations q)
    else if containsSub (toLowerStr q) "distance" then
      match findPairs q with
      | p1 :: p2 :: _ =>
          ("routing", "get_distance",
           [("start_lat", JValue.num (parseDec p1.1)),
            ("start_lon", JValue.num (parseDec p1.2)),
            ("end_lat", JValue.num (parseDec p2.1)),
            ("end_lon", JValue.num (parseDec p2.2))])
      | _ => ("routing", "get_distance", extract_two_coords q)
    else
      ("routing", "get_route", extract_two_coords q)
  else if anyKw (toLowerStr q) rule4Kws then
    if containsSub (toLowerStr q) "overlay" || containsSub (toLowerStr q) "tile" then
      ("weather", "weather_overlay", extract_tile_info q)
    else if q.toList.any Char.isDigit && q.toList.contains ',' then
      ("weather", "get_temperature", extract_coords q)
    else
      ("weather", "get_weather", [("location", JValue.str (extract_location q))])
  else
    ("geo", "geocode", [("address", JValue.str q)])

/-! ### Providers and the tool dispatchers

A provider method is a function returning `Except String JValue`:
`.ok v` models a normal return, `.error e` models the method raising an
exception with message `e`.  Each dispatcher wraps its whole body in
`try/except Exception`, so both a `KeyError` from `arguments[k]` and a
provider exception become the `{"error": str(e)}` payload; nothing escapes.
The dispatcher also returns the list of provider invocations it performed.
-/

/-- The nine provider methods the two agents call. -/
structure Providers where
  geocode : JValue → Except String JValue
  reverse_geocode : JValue → JValue → Except String JValue
  search_poi : JValue → JValue → JValue → Except String JValue
  get_route : JValue → JValue → JValue → JValue → Except String JValue
  get_distance : JValue → JValue → JValue → JValue → Except String JValue
  fastest_route : JValue → JValue → Except String JValue
  get_weather : JValue → Except String JValue
  get_temperature : JValue → JValue → Except String JValue
  weather_overlay : JValue → JValue → JValue → Except String JValue

/-- A record of one provider invocation (method name and arguments). -/
inductive ProviderCall where
  | geocode (a : JValue)
  | reverse_geocode (a b : JValue)
  | search_poi (a b c : JValue)
  | get_route (a b c d : JValue)
  | get_distance (a b c d : JValue)
  | fastest_route (a b : JValue)
  | get_weather (a : JValue)
  | get_temperature (a b : JValue)
  | weather_overlay (a b c : JValue)

/-- `except Exception` around a provider call: an exception becomes the
error payload. -/
def catchResult : Except String JValue → JValue
  | Except.ok v => v
  | Except.error e => errObj e

/-- One-argument dispatcher branch: fetch the argument (a missing key is a
`KeyError` caught by the surrounding `except`), then invoke the provider. -/
def run1 (args : Args) (k1 : String) (f : JValue → Except String JValue)
    (mk : JValue → ProviderCall) : JValue × List ProviderCall :=
  match lookupArg args k1 with
  | none => (errObj (keyErrStr k1), [])
  | some a => (catchResult (f a), [mk a])

/-- Two-argument dispatcher branch. -/
def run2 (args : Args) (k1 k2 : String) (f : JValue → JValue → Except String JValue)
    (mk : JValue → JValue → ProviderCall) : JValue × List ProviderCall :=
  match lookupArg args k1 with
  | none => (errObj (keyErrStr k1), [])
  | some a =>
    match lookupArg args k2 with
    | none => (errObj (keyErrStr k2), [])
    | some b => (catchResult (f a b), [mk a b])

/-- Three-argument dispatcher branch. -/
def run3 (args : Args) (k1 k2 k3 : String)
    (f : JValue → JValue → JValue → Except String JValue)
    (mk : JValue → JValue → JValue → ProviderCall) : JValue × List ProviderCall :=
  match lookupArg args k1 with
  | none => (errObj (keyErrStr k1), [])
  | some a =>
    match lookupArg args k2 with
    | none => (errObj (keyErrStr k2), [])
    | some b =>
      match lookupArg args k3 with
      | none => (errObj (keyErrStr k3), [])
      | some c => (catchResult (f a b c), [mk a b c])

/-- Four-argument dispatcher branch. -/
def run4 (args : Args) (k1 k2 k3 k4 : String)
    (f : JValue → JValue → JValue → JValue → Except String JValue)
    (mk : JValue → JValue → JValue → JValue → ProviderCall) : JValue × List ProviderCall :=
  match lookupArg args k1 with
  | none => (errObj (keyErrStr k1), [])
  | some a =>
    match lookupArg args k2 with
    | none => (errObj (keyErrStr k2), [])
    | some b =>
      match lookupArg args k3 with
      | none => (errObj (keyErrStr k3), [])
      | some c =>
        match lookupArg args k4 with
        | none => (errObj (keyErrStr k4), [])
        | some d => (catchResult (f a b c d), [mk a b c d])

/-- `InteractiveAgent.call_tool`: the unified dispatcher over all eight
tools of the interactive agent, with the unknown-name fallback. -/
def call_tool (p : Providers) (tool_name : String) (args : Args) :
    JValue × List ProviderCall :=
  if tool_name = "geocode" then
    run1 args "address" p.geocode ProviderCall.geocode
  else if tool_name = "reverse_geocode" then
    run2 args "lat" "lon" p.reverse_geocode ProviderCall.reverse_geocode
  else if tool_name = "search_poi" then
    run3 args "query" "lat" "lon" p.search_poi ProviderCall.search_poi
  else if tool_name = "get_route" then
    run4 args "start_lat" "start_lon" "end_lat" "end_lon" p.get_route ProviderCall.get_route
  else if tool_name = "get_distance" then
    run4 args "start_lat" "start_lon" "end_lat" "end_lon" p.get_distance ProviderCall.get_distance
  else if tool_name = "fastest_route" then
    run2 args "start" "end" p.fastest_route ProviderCall.fastest_route
  else if tool_name = "get_weather" then
    run1 args "location" p.get_weather ProviderCall.get_weather
  else if tool_name = "get_temperature" then
    run2 args "lat" "lon" p.get_temperature ProviderCall.get_temperature
  else
    (errObj ("Unknown tool: " ++ tool_name), [])

/-- The tool names `call_tool` dispatches on. -/
def knownTools : List String :=
  ["geocode", "reverse_geocode", "search_poi", "get_route", "get_distance",
   "fastest_route", "get_weather", "get_temperature"]

/-- Required argument names per tool, in the order the dispatcher body
accesses them. -/
def requiredArgs : String → List String
  | "geocode" => ["address"]
  | "reverse_geocode" => ["lat", "lon"]
  | "search_poi" => ["query", "lat", "lon"]
  | "get_route" => ["start_lat", "start_lon", "end_lat", "end_lon"]
  | "get_distance" => ["start_lat", "start_lon", "end_lat", "end_lon"]
  | "fastest_route" => ["start", "end"]
  | "get_weather" => ["location"]
  | "get_temperature" => ["lat", "lon"]
  | _ => []

/-- `AssistantAgent._call_geo_tool`. -/
def call_geo_tool (p : Providers) (tool_name : String) (args : Args) :
    JValue × List ProviderCall :=
  if tool_name = "geocode" then
    run1 args "address" p.geocode ProviderCall.geocode
  else if tool_name = "reverse_geocode" then
    run2 args "lat" "lon" p.reverse_geocode ProviderCall.reverse_geocode
  else if tool_name = "search_poi" then
    run3 args "query" "lat" "lon" p.search_poi ProviderCall.search_poi
  else
    (errObj ("Unknown geo tool: " ++ tool_name), [])

/-- `AssistantAgent._call_routing_tool`. -/
def call_routing_tool (p : Providers) (tool_name : String) (args : Args) :
    JValue × List ProviderCall :=
  if tool_name = "get_route" then
    run4 args "start_lat" "start_lon" "end_lat" "end_lon" p.get_route ProviderCall.get_route
  else if tool_name = "get_distance" then
    run4 args "start_lat" "start_lon" "end_lat" "end_lon" p.get_distance ProviderCall.get_distance
  else if tool_name = "fastest_route" then
    run2 args "start" "end" p.fastest_route ProviderCall.fastest_route
  else
    (errObj ("Unknown routing tool: " ++ tool_name), [])

/-- `AssistantAgent._call_weather_tool`. -/
def call_weather_tool (p : Providers) (tool_name : String) (args : Args) :
    JValue × List ProviderCall :=
  if tool_name = "get_weather" then
    run1 args "location" p.get_weather ProviderCall.get_weather
  else if tool_name = "get_temperature" then
    run2 args "lat" "lon" p.get_temperature ProviderCall.get_temperature
  else if tool_name = "weather_overlay" then
    run3 args "tile_x" "tile_y" "zoom" p.weather_overlay ProviderCall.weather_overlay
  else
    (errObj ("Unknown weather tool: " ++ tool_name), [])

/-- `AssistantAgent.process_query`: route, dispatch to the per-server
wrapper, and wrap the outcome.  Routing is total and the wrappers catch
every exception, so the `except` path of the source (which would return a
`{"query", "error"}` payload) is unreachable; accordingly this function is
total and always builds the four-key payload. -/
def process_query (p : Providers) (q : String) : JValue :=
  let rt := route_query q
  let result :=
    if rt.1 = "geo" then (call_geo_tool p rt.2.1 rt.2.2).1
    else if rt.1 = "routing" then (call_routing_tool p rt.2.1 rt.2.2).1
    else if rt.1 = "weather" then (call_weather_tool p rt.2.1 rt.2.2).1
    else errObj ("Unknown server: " ++ rt.1)
  JValue.obj
    [("query", JValue.str q), ("server", JValue.str rt.1),
     ("tool", JValue.str rt.2.1), ("result", result)]

/-! ### The orchestration loop (`InteractiveAgent.chat`)

The reasoning engine (the LLM behind `chat.completions.create`) is an
opaque parameter: a function from the conversation history to a response
carrying optional text and a list of tool invocation requests, as in the
spec's reasoning-engine boundary.  `chat` is the source's `while` loop:
the iteration counter and the ceiling of 5 become structural fuel, one
unit per reasoning query.
-/

/-- A pending tool invocation request issued by the reasoning engine. -/
structure ToolCall where
  id : String
  name : String
  args : Args

/-- A conversation turn, tagged by role as in the source's message dicts.
An assistant turn carries its optional text and its (possibly empty) list
of tool invocation requests; a tool turn carries the invocation id, the
operation name and the result payload. -/
inductive Msg where
  | system (content : String)
  | user (content : String)
  | assistant (content : Option String) (tool_calls : List ToolCall)
  | tool (tool_call_id : String) (name : String) (content : JValue)

/-- One reasoning-engine response: optional plain text plus zero or more
tool invocation requests (`None` tool calls are the empty list). -/
structure EngineResp where
  content : Option String
  tool_calls : List ToolCall

/-- The reasoning engine boundary. -/
def Engine : Type := List Msg → EngineResp

/-- The retry message returned when the iteration ceiling is reached. -/
def retryMsg : String :=
  "I\x27m having trouble processing your request. Please try again with a simpler question."

/-- The fallback returned when the engine stops without usable text. -/
def noRespMsg : String :=
  "I processed your request but didn\x27t get a response. Please try rephrasing your question."

/-- `max_iterations` in `chat`. -/
def max_iterations : Nat := 5

/-- The outcome of `chat`: the returned answer, the final conversation
history, and the history snapshot at each reasoning query (so
`queries.length` is the number of reasoning queries made). -/
structure ChatOut where
  answer : String
  history : List Msg
  queries : List (List Msg)

/-- The tool-result message appended for one request: correlated by the
request's invocation id, carrying the dispatcher's result. -/
def toolResultMsg (p : Providers) (tc : ToolCall) : Msg :=
  Msg.tool tc.id tc.name (call_tool p tc.name tc.args).1

/-- The body of `chat`'s `while` loop.  Each level: one reasoning query,
append the assistant message; if it carries requests, execute each through
the dispatcher and append its result (in request order), then loop;
otherwise return the text (or the fallback when it is `None`/empty).
Exhausted fuel is `iteration == max_iterations`: return the retry
message. -/
def chatLoop (engine : Engine) (p : Providers) : Nat → List Msg → ChatOut
  | 0, hist => { answer := retryMsg, history := hist, queries := [] }
  | fuel + 1, hist =>
    let resp := engine hist
    let hist1 := hist ++ [Msg.assistant resp.content resp.tool_calls]
    if resp.tool_calls.isEmpty then
      match resp.content with
      | some c =>
          { answer := if c = "" then noRespMsg else c, history := hist1, queries := [hist] }
      | none => { answer := noRespMsg, history := hist1, queries := [hist] }
    else
      let hist2 := hist1 ++ resp.tool_calls.map (toolResultMsg p)
      let out := chatLoop engine p fuel hist2
      { answer := out.answer, history := out.history, queries := hist :: out.queries }

/-- `InteractiveAgent.chat`: append the user message, then run the loop
with the fixed iteration budget. -/
def chat (engine : Engine) (p : Providers) (user_message : String)
    (conversation_history : List Msg) : ChatOut :=
  chatLoop engine p max_iterations (conversation_history ++ [Msg.user user_message])

/-! ### Correlation of tool requests and tool results

`runOk pending h` walks a history: an assistant turn may only appear with
no requests outstanding and makes its requests pending; each pending
request must be discharged by the very next messages — one tool turn per
request, correlated by invocation id and name, in request order.  It
returns the requests still pending at the end, or `none` on a violation.
A history is well formed when the walk from no pending requests ends with
none pending. -/
def runOk : List (String × String) → List Msg → Option (List (String × String))
  | ps, [] => some ps
  | [], Msg.assistant _ tcs :: rest => runOk (tcs.map (fun tc => (tc.id, tc.name))) rest
  | [], Msg.system _ :: rest => runOk [] rest
  | [], Msg.user _ :: rest => runOk [] rest
  | [], Msg.tool _ _ _ :: rest => runOk [] rest
  | p :: ps, Msg.tool i n _ :: rest => if i = p.1 ∧ n = p.2 then runOk ps rest else none
  | _ :: _, Msg.assistant _ _ :: _ => none
  | _ :: _, Msg.system _ :: _ => none
  | _ :: _, Msg.user _ :: _ => none

/-- Every tool request in the history is followed, before anything else,
by exactly one tool-result message with its invocation id, in request
order. -/
def okHist (h : List Msg) : Prop := runOk [] h = some []

/-- `runOk` over a concatenation threads the pending requests. -/
theorem runOk_append (h : List Msg) :
    ∀ (ps : List (String × String)) (t : List Msg),
      runOk ps (h ++ t) = (runOk ps h).bind (fun ps2 => runOk ps2 t) := by
  induction h with
  | nil => intro ps t; simp [runOk]
  | cons m rest ih =>
    intro ps t
    cases ps with
    | nil => cases m <;> simp [runOk, ih]
    | cons p ps' =>
      cases m with
      | tool i n c =>
        by_cases hpn : i = p.1 ∧ n = p.2
        · simp [runOk, hpn, ih]
        · simp [runOk, hpn]
      | system c => simp [runOk]
      | user c => simp [runOk]
      | assistant c tcs => simp [runOk]

/-- Executing the requests of one step appends exactly their correlated
results, leaving nothing pending. -/
theorem runOk_toolResults (p : Providers) (tcs : List ToolCall) :
    runOk (tcs.map (fun tc => (tc.id, tc.name))) (tcs.map (toolResultMsg p)) = some [] := by
  induction tcs with
  | nil => simp [runOk]
  | cons tc rest ih => simp [runOk, toolResultMsg, ih]

/-! ### Concrete stubs used by the witnesses -/

/-- A provider stub whose every method succeeds with a fixed payload. -/
def stubProviders : Providers where
  geocode _ := Except.ok (JValue.str "ok")
  reverse_geocode _ _ := Except.ok (JValue.str "ok")
  search_poi _ _ _ := Except.ok (JValue.str "ok")
  get_route _ _ _ _ := Except.ok (JValue.str "ok")
  get_distance _ _ _ _ := Except.ok (JValue.str "ok")
  fastest_route _ _ := Except.ok (JValue.str "ok")
  get_weather _ := Except.ok (JValue.str "ok")
  get_temperature _ _ := Except.ok (JValue.str "ok")
  weather_overlay _ _ _ := Except.ok (JValue.str "ok")

/-- A provider stub whose every method raises with message `e`. -/
def raisingProviders (e : String) : Providers where
  geocode _ := Except.error e
  reverse_geocode _ _ := Except.error e
  search_poi _ _ _ := Except.error e
  get_route _ _ _ _ := Except.error e
  get_distance _ _ _ _ := Except.error e
  fastest_route _ _ := Except.error e
  get_weather _ := Except.error e
  get_temperature _ _ := Except.error e
  weather_overlay _ _ _ := Except.error e

/-- A reasoning-engine stub that always requests one tool and never
answers. -/
def alwaysToolEngine : Engine :=
  fun _ =>
    { content := none,
      tool_calls := [{ id := "call_1", name := "geocode",
                       args := [("address", JValue.str "Beirut")] }] }

/-- A reasoning-engine stub that immediately answers with plain text. -/
def immediateEngine : Engine :=
  fun _ => { content := some "All done", tool_calls := [] }

/-- A reasoning-engine stub that requests one tool on the first query and
answers on the next. -/
def oneToolThenAnswerEngine : Engine :=
  fun hist =>
    if hist.length ≤ 2 then
      { content := none,
        tool_calls := [{ id := "call_9", name := "get_weather",
                         args := [("location", JValue.str "Beirut")] }] }
    else { content := some "Sunny.", tool_calls := [] }

/-! ## Theorems -/

/-! ### Dispatcher lemmas -/

theorem call_tool_geocode (p : Providers) (args : Args) :
    call_tool p "geocode" args = run1 args "address" p.geocode ProviderCall.geocode := rfl

theorem call_tool_reverse_geocode (p : Providers) (args : Args) :
    call_tool p "reverse_geocode" args
      = run2 args "lat" "lon" p.reverse_geocode ProviderCall.reverse_geocode := rfl

theorem call_tool_search_poi (p : Providers) (args : Args) :
    call_tool p "search_poi" args
      = run3 args "query" "lat" "lon" p.search_poi ProviderCall.search_poi := rfl

theorem call_tool_get_route (p : Providers) (args : Args) :
    call_tool p "get_route" args
      = run4 args "start_lat" "start_lon" "end_lat" "end_lon" p.get_route
          ProviderCall.get_route := rfl

theorem call_tool_get_distance (p : Providers) (args : Args) :
    call_tool p "get_distance" args
      = run4 args "start_lat" "start_lon" "end_lat" "end_lon" p.get_distance
          ProviderCall.get_distance := rfl

theorem call_tool_fastest_route (p : Providers) (args : Args) :
    call_tool p "fastest_route" args
      = run2 args "start" "end" p.fastest_route ProviderCall.fastest_route := rfl

theorem call_tool_get_weather (p : Providers) (args : Args) :
    call_tool p "get_weather" args
      = run1 args "location" p.get_weather ProviderCall.get_weather := rfl

theorem call_tool_get_temperature (p : Providers) (args : Args) :
    call_tool p "get_temperature" args
      = run2 args "lat" "lon" p.get_temperature ProviderCall.get_temperature := rfl

theorem run1_missing (args : Args) (k1 : String) (f : JValue → Except String JValue)
    (mk : JValue → ProviderCall) (h : lookupArg args k1 = none) :
    run1 args k1 f mk = (errObj (keyErrStr k1), []) := by
  simp [run1, h]

theorem run2_missing (args : Args) (k1 k2 : String)
    (f : JValue → JValue → Except String JValue) (mk : JValue → JValue → ProviderCall)
    (h : lookupArg args k1 = none ∨ lookupArg args k2 = none) :
    ∃ k, (k = k1 ∨ k = k2) ∧ lookupArg args k = none ∧
      run2 args k1 k2 f mk = (errObj (keyErrStr k), []) := by
  cases e1 : lookupArg args k1 with
  | none => exact ⟨k1, Or.inl rfl, e1, by simp [run2, e1]⟩
  | some a =>
    cases e2 : lookupArg args k2 with
    | none => exact ⟨k2, Or.inr rfl, e2, by simp [run2, e1, e2]⟩
    | some b =>
      rcases h with h | h
      · rw [h] at e1; cases e1
      · rw [h] at e2; cases e2

theorem run3_missing (args : Args) (k1 k2 k3 : String)
    (f : JValue → JValue → JValue → Except String JValue)
    (mk : JValue → JValue → JValue → ProviderCall)
    (h : lookupArg args k1 = none ∨ lookupArg args k2 = none ∨ lookupArg args k3 = none) :
    ∃ k, (k = k1 ∨ k = k2 ∨ k = k3) ∧ lookupArg args k = none ∧
      run3 args k1 k2 k3 f mk = (errObj (keyErrStr k), []) := by
  cases e1 : lookupArg args k1 with
  | none => exact ⟨k1, Or.inl rfl, e1, by simp [run3, e1]⟩
  | some a =>
    cases e2 : lookupArg args k2 with
    | none => exact ⟨k2, Or.inr (Or.inl rfl), e2, by simp [run3, e1, e2]⟩
    | some b =>
      cases e3 : lookupArg args k3 with
      | none => exact ⟨k3, Or.inr (Or.inr rfl), e3, by simp [run3, e1, e2, e3]⟩
      | some c =>
        rcases h with h | h | h
        · rw [h] at e1; cases e1
        · rw [h] at e2; cases e2
        · rw [h] at e3; cases e3

theorem run4_missing (args : Args) (k1 k2 k3 k4 : String)
    (f : JValue → JValue → JValue → JValue → Except String JValue)
    (mk : JValue → JValue → JValue → JValue → ProviderCall)
    (h : lookupArg args k1 = none ∨ lookupArg args k2 = none
       ∨ lookupArg args k3 = none ∨ lookupArg args k4 = none) :
    ∃ k, (k = k1 ∨ k = k2 ∨ k = k3 ∨ k = k4) ∧ lookupArg args k = none ∧
      run4 args k1 k2 k3 k4 f mk = (errObj (keyErrStr k), []) := by
  cases e1 : lookupArg args k1 with
  | none => exact ⟨k1, Or.inl rfl, e1, by simp [run4, e1]⟩
  | some a =>
    cases e2 : lookupArg args k2 with
    | none => exact ⟨k2, Or.inr (Or.inl rfl), e2, by simp [run4, e1, e2]⟩
    | some b =>
      cases e3 : lookupArg args k3 with
      | none => exact ⟨k3, Or.inr (Or.inr (Or.inl rfl)), e3, by simp [run4, e1, e2, e3]⟩
      | some c =>
        cases e4 : lookupArg args k4 with
        | none =>
          exact ⟨k4, Or.inr (Or.inr (Or.inr rfl)), e4, by simp [run4, e1, e2, e3, e4]⟩
        | some d =>
          rcases h with h | h | h | h
          · rw [h] at e1; cases e1
          · rw [h] at e2; cases e2
          · rw [h] at e3; cases e3
          · rw [h] at e4; cases e4

theorem run1_present (args : Args) (k1 : String) (f : JValue → Except String JValue)
    (mk : JValue → ProviderCall) (a : JValue) (h : lookupArg args k1 = some a) :
    run1 args k1 f mk = (catchResult (f a), [mk a]) := by
  simp [run1, h]

theorem run2_present (args : Args) (k1 k2 : String)
    (f : JValue → JValue → Except String JValue) (mk : JValue → JValue → ProviderCall)
    (a b : JValue) (h1 : lookupArg args k1 = some a) (h2 : lookupArg args k2 = some b) :
    run2 args k1 k2 f mk = (catchResult (f a b), [mk a b]) := by
  simp [run2, h1, h2]

theorem run3_present (args : Args) (k1 k2 k3 : String)
    (f : JValue → JValue → JValue → Except String JValue)
    (mk : JValue → JValue → JValue → ProviderCall)
    (a b c : JValue) (h1 : lookupArg args k1 = some a) (h2 : lookupArg args k2 = some b)
    (h3 : lookupArg args k3 = some c) :
    run3 args k1 k2 k3 f mk = (catchResult (f a b c), [mk a b c]) := by
  simp [run3, h1, h2, h3]

theorem run4_present (args : Args) (k1 k2 k3 k4 : String)
    (f : JValue → JValue → JValue → JValue → Except String JValue)
    (mk : JValue → JValue → JValue → JValue → ProviderCall)
    (a b c d : JValue) (h1 : lookupArg args k1 = some a) (h2 : lookupArg args k2 = some b)
    (h3 : lookupArg args k3 = some c) (h4 : lookupArg args k4 = some d) :
    run4 args k1 k2 k3 k4 f mk = (catchResult (f a b c d), [mk a b c d]) := by
  simp [run4, h1, h2, h3, h4]

/-- C4: for every known operation name and every argument mapping missing at
least one required argument, the dispatcher returns a failure result naming a
missing field (the caught `KeyError` carries the field's name) and performs no
provider invocation. -/
theorem dispatcher_missing_arg_no_provider_call (p : Providers) (name : String)
    (args : Args) (hk : name ∈ knownTools)
    (hm : ∃ k ∈ requiredArgs name, lookupArg args k = none) :
    (call_tool p name args).2 = [] ∧
    ∃ k ∈ requiredArgs name, lookupArg args k = none ∧
      (call_tool p name args).1 = errObj (keyErrStr k) := by
  simp only [knownTools, List.mem_cons, List.not_mem_nil, or_false] at hk
  rcases hk with rfl | rfl | rfl | rfl | rfl | rfl | rfl | rfl
  · simp only [requiredArgs, List.mem_cons, List.not_mem_nil, or_false, exists_eq_left] at hm
    rw [call_tool_geocode, run1_missing _ _ _ _ hm]
    exact ⟨rfl, "address", by simp [requiredArgs], hm, rfl⟩
  · simp only [requiredArgs, List.mem_cons, List.not_mem_nil, or_false] at hm
    obtain ⟨k, hk12, hn⟩ := hm
    have hor : lookupArg args "lat" = none ∨ lookupArg args "lon" = none := by
      rcases hk12 with rfl | rfl
      · exact Or.inl hn
      · exact Or.inr hn
    obtain ⟨k, hk', hn', heq⟩ := run2_missing args "lat" "lon" p.reverse_geocode _ hor
    rw [call_tool_reverse_geocode, heq]
    exact ⟨rfl, k, by rcases hk' with rfl | rfl <;> simp [requiredArgs], hn', rfl⟩
  · simp only [requiredArgs, List.mem_cons, List.not_mem_nil, or_false] at hm
    obtain ⟨k, hk123, hn⟩ := hm
    have hor : lookupArg args "query" = none ∨ lookupArg args "lat" = none
        ∨ lookupArg args "lon" = none := by
      rcases hk123 with rfl | rfl | rfl
      · exact Or.inl hn
      · exact Or.inr (Or.inl hn)
      · exact Or.inr (Or.inr hn)
    obtain ⟨k, hk', hn', heq⟩ := run3_missing args "query" "lat" "lon" p.search_poi _ hor
    rw [call_tool_search_poi, heq]
    exact ⟨rfl, k, by rcases hk' with rfl | rfl | rfl <;> simp [requiredArgs], hn', rfl⟩
  · simp only [requiredArgs, List.mem_cons, List.not_mem_nil, or_false] at hm
    obtain ⟨k, hks, hn⟩ := hm
    have hor : lookupArg args "start_lat" = none ∨ lookupArg args "start_lon" = none
        ∨ lookupArg args "end_lat" = none ∨ lookupArg args "end_lon" = none := by
      rcases hks with rfl | rfl | rfl | rfl
      · exact Or.inl hn
      · exact Or.inr (Or.inl hn)
      · exact Or.inr (Or.inr (Or.inl hn))
      · exact Or.inr (Or.inr (Or.inr hn))
    obtain ⟨k, hk', hn', heq⟩ :=
      run4_missing args "start_lat" "start_lon" "end_lat" "end_lon" p.get_route _ hor
    rw [call_tool_get_route, heq]
    exact ⟨rfl, k, by rcases hk' with rfl | rfl | rfl | rfl <;> simp [requiredArgs], hn', rfl⟩
  · simp only [requiredArgs, List.mem_cons, List.not_mem_nil, or_false] at hm
    obtain ⟨k, hks, hn⟩ := hm
    have hor : lookupArg args "start_lat" = none ∨ lookupArg args "start_lon" = none
        ∨ lookupArg args "end_lat" = none ∨ lookupArg args "end_lon" = none := by
      rcases hks with rfl | rfl | rfl | rfl
      · exact Or.inl hn
      · exact Or.inr (Or.inl hn)
      · exact Or.inr (Or.inr (Or.inl hn))
      · exact Or.inr (Or.inr (Or.inr hn))
    obtain ⟨k, hk', hn', heq⟩ :=
      run4_missing args "start_lat" "start_lon" "end_lat" "end_lon" p.get_distance _ hor
    rw [call_tool_get_distance, heq]
    exact ⟨rfl, k, by rcases hk' with rfl | rfl | rfl | rfl <;> simp [requiredArgs], hn', rfl⟩
  · simp only [requiredArgs, List.mem_cons, List.not_mem_nil, or_false] at hm
    obtain ⟨k, hk12, hn⟩ := hm
    have hor : lookupArg args "start" = none ∨ lookupArg args "end" = none := by
      rcases hk12 with rfl | rfl
      · exact Or.inl hn
      · exact Or.inr hn
    obtain ⟨k, hk', hn', heq⟩ := run2_missing args "start" "end" p.fastest_route _ hor
    rw [call_tool_fastest_route, heq]
    exact ⟨rfl, k, by rcases hk' with rfl | rfl <;> simp [requiredArgs], hn', rfl⟩
  · simp only [requiredArgs, List.mem_cons, List.not_mem_nil, or_false, exists_eq_left] at hm
    rw [call_tool_get_weather, run1_missing _ _ _ _ hm]
    exact ⟨rfl, "location", by simp [requiredArgs], hm, rfl⟩
  · simp only [requiredArgs, List.mem_cons, List.not_mem_nil, or_false] at hm
    obtain ⟨k, hk12, hn⟩ := hm
    have hor : lookupArg args "lat" = none ∨ lookupArg args "lon" = none := by
      rcases hk12 with rfl | rfl
      · exact Or.inl hn
      · exact Or.inr hn
    obtain ⟨k, hk', hn', heq⟩ := run2_missing args "lat" "lon" p.get_temperature _ hor
    rw [call_tool_get_temperature, heq]
    exact ⟨rfl, k, by rcases hk' with rfl | rfl <;> simp [requiredArgs], hn', rfl⟩

/-- Witness for C4: `search_poi` called without its required `lat`. -/
theorem dispatcher_missing_arg_no_provider_call_witness :
    ("search_poi" ∈ knownTools) ∧
    (∃ k ∈ requiredArgs "search_poi",
      lookupArg [("query", JValue.str "cafe")] k = none) ∧
    ((call_tool stubProviders "search_poi" [("query", JValue.str "cafe")]).2 = [] ∧
     ∃ k ∈ requiredArgs "search_poi",
       lookupArg [("query", JValue.str "cafe")] k = none ∧
       (call_tool stubProviders "search_poi" [("query", JValue.str "cafe")]).1
         = errObj (keyErrStr k)) :=
  ⟨by simp [knownTools], ⟨"lat", by simp [requiredArgs], rfl⟩,
   dispatcher_missing_arg_no_provider_call stubProviders "search_poi"
     [("query", JValue.str "cafe")] (by simp [knownTools])
     ⟨"lat", by simp [requiredArgs], rfl⟩⟩

/-- Counterexample to C2 as stated: when the provider raises, the dispatcher's
failure payload is `{"error": str(e)}` — it carries no `success` field at all,
and with an empty exception message the `error` string is empty too.  So the
claimed shape (`success: false` plus non-empty `error`) does not hold. -/
theorem dispatcher_exception_claim_cex :
    ¬(jLookup (call_tool (raisingProviders "") "geocode"
          [("address", JValue.str "x")]).1 "success" = some (JValue.bool false) ∧
      ∃ s, jLookup (call_tool (raisingProviders "") "geocode"
          [("address", JValue.str "x")]).1 "error" = some (JValue.str s) ∧ s ≠ "") := by
  intro hcl
  obtain ⟨hs, -⟩ := hcl
  rw [show (call_tool (raisingProviders "") "geocode" [("address", JValue.str "x")]).1
        = errObj "" from rfl] at hs
  simp [errObj, jLookup] at hs

/-- C2 amended: when the provider method raises, the dispatcher never raises
and returns the payload `{"error": str(e)}` (whose `error` string equals the
exception's message, possibly empty, and which has no `success` field), after
exactly one provider invocation. -/
theorem dispatcher_exception_normalized (e : String) (name : String) (args : Args)
    (hk : name ∈ knownTools)
    (hall : ∀ k ∈ requiredArgs name, (lookupArg args k).isSome = true) :
    (call_tool (raisingProviders e) name args).1 = errObj e ∧
    (call_tool (raisingProviders e) name args).2.length = 1 := by
  simp only [knownTools, List.mem_cons, List.not_mem_nil, or_false] at hk
  rcases hk with rfl | rfl | rfl | rfl | rfl | rfl | rfl | rfl
  · obtain ⟨a, ha⟩ := Option.isSome_iff_exists.mp
      (hall "address" (by simp [requiredArgs]))
    rw [call_tool_geocode, run1_present _ _ _ _ _ ha]
    exact ⟨rfl, rfl⟩
  · obtain ⟨a, ha⟩ := Option.isSome_iff_exists.mp (hall "lat" (by simp [requiredArgs]))
    obtain ⟨b, hb⟩ := Option.isSome_iff_exists.mp (hall "lon" (by simp [requiredArgs]))
    rw [call_tool_reverse_geocode, run2_present _ _ _ _ _ _ _ ha hb]
    exact ⟨rfl, rfl⟩
  · obtain ⟨a, ha⟩ := Option.isSome_iff_exists.mp (hall "query" (by simp [requiredArgs]))
    obtain ⟨b, hb⟩ := Option.isSome_iff_exists.mp (hall "lat" (by simp [requiredArgs]))
    obtain ⟨c, hc⟩ := Option.isSome_iff_exists.mp (hall "lon" (by simp [requiredArgs]))
    rw [call_tool_search_poi, run3_present _ _ _ _ _ _ _ _ _ ha hb hc]
    exact ⟨rfl, rfl⟩
  · obtain ⟨a, ha⟩ := Option.isSome_iff_exists.mp
      (hall "start_lat" (by simp [requiredArgs]))
    obtain ⟨b, hb⟩ := Option.isSome_iff_exists.mp
      (hall "start_lon" (by simp [requiredArgs]))
    obtain ⟨c, hc⟩ := Option.isSome_iff_exists.mp
      (hall "end_lat" (by simp [requiredArgs]))
    obtain ⟨d, hd⟩ := Option.isSome_iff_exists.mp
      (hall "end_lon" (by simp [requiredArgs]))
    rw [call_tool_get_route, run4_present _ _ _ _ _ _ _ _ _ _ _ ha hb hc hd]
    exact ⟨rfl, rfl⟩
  · obtain ⟨a, ha⟩ := Option.isSome_iff_exists.mp
      (hall "start_lat" (by simp [requiredArgs]))
    obtain ⟨b, hb⟩ := Option.isSome_iff_exists.mp
      (hall "start_lon" (by simp [requiredArgs]))
    obtain ⟨c, hc⟩ := Option.isSome_iff_exists.mp
      (hall "end_lat" (by simp [requiredArgs]))
    obtain ⟨d, hd⟩ := Option.isSome_iff_exists.mp
      (hall "end_lon" (by simp [requiredArgs]))
    rw [call_tool_get_distance, run4_present _ _ _ _ _ _ _ _ _ _ _ ha hb hc hd]
    exact ⟨rfl, rfl⟩
  · obtain ⟨a, ha⟩ := Option.isSome_iff_exists.mp (hall "start" (by simp [requiredArgs]))
    obtain ⟨b, hb⟩ := Option.isSome_iff_exists.mp (hall "end" (by simp [requiredArgs]))
    rw [call_tool_fastest_route, run2_present _ _ _ _ _ _ _ ha hb]
    exact ⟨rfl, rfl⟩
  · obtain ⟨a, ha⟩ := Option.isSome_iff_exists.mp
      (hall "location" (by simp [requiredArgs]))
    rw [call_tool_get_weather, run1_present _ _ _ _ _ ha]
    exact ⟨rfl, rfl⟩
  · obtain ⟨a, ha⟩ := Option.isSome_iff_exists.mp (hall "lat" (by simp [requiredArgs]))
    obtain ⟨b, hb⟩ := Option.isSome_iff_exists.mp (hall "lon" (by simp [requiredArgs]))
    rw [call_tool_get_temperature, run2_present _ _ _ _ _ _ _ ha hb]
    exact ⟨rfl, rfl⟩

/-- Witness for the amended C2: `get_weather` with a provider raising
`"boom"`. -/
theorem dispatcher_exception_normalized_witness :
    ("get_weather" ∈ knownTools) ∧
    (∀ k ∈ requiredArgs "get_weather",
      (lookupArg [("location", JValue.str "Beirut")] k).isSome = true) ∧
    ((call_tool (raisingProviders "boom") "get_weather"
        [("location", JValue.str "Beirut")]).1 = errObj "boom" ∧
     (call_tool (raisingProviders "boom") "get_weather"
        [("location", JValue.str "Beirut")]).2.length = 1) :=
  ⟨by simp [knownTools],
   by intro k hk; simp [requiredArgs] at hk; subst hk; rfl,
   dispatcher_exception_normalized "boom" "get_weather" [("location", JValue.str "Beirut")]
     (by simp [knownTools])
     (by intro k hk; simp [requiredArgs] at hk; subst hk; rfl)⟩

/-! ### Router theorems -/

/-- C7: a query containing none of the rule 1-4 keywords falls through to the
default decision: forward geocoding on the geo provider with the whole raw
query as the address.  (`route_query` is a total function, so the router
never fails on any input.) -/
theorem route_unmatched_default_geocode (q : String)
    (h1 : anyKw (toLowerStr q) rule1Kws = false)
    (h2 : anyKw (toLowerStr q) rule2Kws = false)
    (h3 : anyKw (toLowerStr q) rule3Kws = false)
    (h4 : anyKw (toLowerStr q) rule4Kws = false) :
    route_query q = ("geo", "geocode", [("address", JValue.str q)]) := by
  simp [route_query, h1, h2, h3, h4]

/-- Witness for C7 at the keyword-free query `"hello world"`. -/
theorem route_unmatched_default_geocode_witness :
    anyKw (toLowerStr "hello world") rule1Kws = false ∧
    anyKw (toLowerStr "hello world") rule2Kws = false ∧
    anyKw (toLowerStr "hello world") rule3Kws = false ∧
    anyKw (toLowerStr "hello world") rule4Kws = false ∧
    route_query "hello world" = ("geo", "geocode", [("address", JValue.str "hello world")]) :=
  ⟨by decide, by decide, by decide, by decide,
   route_unmatched_default_geocode "hello world" (by decide) (by decide) (by decide) (by decide)⟩

/-- Counterexample to C3 as stated: `"find distance 1,2 3,4"` contains the
word `"distance"` and two coordinate pairs, yet the earlier POI rule matches
on `"find"` first, so the router returns `search_poi`, not the distance
operation. -/
theorem router_distance_claim_cex :
    containsSub (toLowerStr "find distance 1,2 3,4") "distance" = true ∧
    2 ≤ (findPairs "find distance 1,2 3,4").length ∧
    (route_query "find distance 1,2 3,4").2.1 = "search_poi" ∧
    (route_query "find distance 1,2 3,4").2.1 ≠ "get_distance" := by
  refine ⟨by decide, by decide, by decide, by decide⟩

/-- C3 amended: the distance decision holds for every query containing the
word `"distance"` and at least two coordinate-pair occurrences, provided no
earlier rule fires (no rule-1 or rule-2 keyword) and neither `"fastest"`
nor `"quickest"` preempts it; the first two pairs, in textual order, become
start and end. -/
theorem router_distance_coord_pairs (q : String) (p1 p2 : String × String)
    (rest : List (String × String))
    (h1 : anyKw (toLowerStr q) rule1Kws = false)
    (h2 : anyKw (toLowerStr q) rule2Kws = false)
    (hf : containsSub (toLowerStr q) "fastest" = false)
    (hqk : containsSub (toLowerStr q) "quickest" = false)
    (hd : containsSub (toLowerStr q) "distance" = true)
    (hp : findPairs q = p1 :: p2 :: rest) :
    route_query q = ("routing", "get_distance",
      [("start_lat", JValue.num (parseDec p1.1)),
       ("start_lon", JValue.num (parseDec p1.2)),
       ("end_lat", JValue.num (parseDec p2.1)),
       ("end_lon", JValue.num (parseDec p2.2))]) := by
  have h3 : anyKw (toLowerStr q) rule3Kws = true := by
    simp [anyKw, rule3Kws, hd]
  simp [route_query, h1, h2, h3, hf, hqk, hd, hp]

/-- Witness for the amended C3 at `"distance 1,2 3,4"`. -/
theorem router_distance_coord_pairs_witness :
    anyKw (toLowerStr "distance 1,2 3,4") rule1Kws = false ∧
    anyKw (toLowerStr "distance 1,2 3,4") rule2Kws = false ∧
    containsSub (toLowerStr "distance 1,2 3,4") "fastest" = false ∧
    containsSub (toLowerStr "distance 1,2 3,4") "quickest" = false ∧
    containsSub (toLowerStr "distance 1,2 3,4") "distance" = true ∧
    findPairs "distance 1,2 3,4" = [("1", "2"), ("3", "4")] ∧
    route_query "distance 1,2 3,4" = ("routing", "get_distance",
      [("start_lat", JValue.num (parseDec "1")),
       ("start_lon", JValue.num (parseDec "2")),
       ("end_lat", JValue.num (parseDec "3")),
       ("end_lon", JValue.num (parseDec "4"))]) :=
  ⟨by decide, by decide, by decide, by decide, by decide, by decide,
   router_distance_coord_pairs "distance 1,2 3,4" ("1", "2") ("3", "4") []
     (by decide) (by decide) (by decide) (by decide) (by decide) (by decide)⟩

/-- Counterexample to C6 as stated: `"1,2 3,4"` contains two coordinate-pair
occurrences, but the extractor does not return them — it ignores its input. -/
theorem extract_two_coords_claim_cex :
    2 ≤ (findPairs "1,2 3,4").length ∧
    extract_two_coords "1,2 3,4" ≠
      [("start_lat", JValue.num 1), ("start_lon", JValue.num 2),
       ("end_lat", JValue.num 3), ("end_lon", JValue.num 4)] := by
  refine ⟨by decide, ?_⟩
  intro h
  simp only [extract_two_coords, List.cons.injEq, Prod.mk.injEq, JValue.num.injEq,
    and_true, true_and] at h
  exact absurd h.1 (by norm_num [defLat])

/-- C6 amended: the two-coordinate-pair extraction ignores its input and
returns the fixed default pair (Beirut start, Tripoli end) on every text. -/
theorem extract_two_coords_always_default (q : String) :
    extract_two_coords q =
      [("start_lat", JValue.num defLat), ("start_lon", JValue.num defLon),
       ("end_lat", JValue.num defEndLat), ("end_lon", JValue.num defEndLon)] := rfl

/-- C9: a query routed by rule 2 that mentions `"cafe"` and carries no
literal coordinate pair yields the POI-search decision with category
`"cafe"` and the fixed default coordinates — the deterministic path does not
geocode named places. -/
theorem route_poi_cafe_default_coords (q : String)
    (h1 : anyKw (toLowerStr q) rule1Kws = false)
    (h2 : anyKw (toLowerStr q) rule2Kws = true)
    (hc : containsSub (toLowerStr q) "cafe" = true)
    (hp : searchPair q.toList = none) :
    route_query q = ("geo", "search_poi",
      [("query", JValue.str "cafe"),
       ("lat", JValue.num defLat), ("lon", JValue.num defLon)]) := by
  have hfind : List.find? (fun t => containsSub (toLowerStr q) t) poiTypes = some "cafe" := by
    simp [poiTypes, List.find?, hc]
  have hp2 : searchPair q.data = none := hp
  simp [route_query, h1, h2, extract_location_for_poi, hfind, extract_coords_pair, hp2]

/-- Witness for C9 at the spec's scenario query `"Find cafes near AUB"`. -/
theorem route_poi_cafe_default_coords_witness :
    anyKw (toLowerStr "Find cafes near AUB") rule1Kws = false ∧
    anyKw (toLowerStr "Find cafes near AUB") rule2Kws = true ∧
    containsSub (toLowerStr "Find cafes near AUB") "cafe" = true ∧
    searchPair "Find cafes near AUB".toList = none ∧
    route_query "Find cafes near AUB" = ("geo", "search_poi",
      [("query", JValue.str "cafe"),
       ("lat", JValue.num defLat), ("lon", JValue.num defLon)]) :=
  ⟨by decide, by decide, by decide, by decide,
   route_poi_cafe_default_coords "Find cafes near AUB"
     (by decide) (by decide) (by decide) (by decide)⟩

/-- C10: `process_query` always returns the four-key payload
`{query, server, tool, result}` with the `query` field equal to the input;
routing is total and the per-server wrappers catch every exception, so the
`{query, error}` total-failure shape is never produced. -/
theorem process_query_shape (p : Providers) (q : String) :
    jKeys (process_query p q) = ["query", "server", "tool", "result"] ∧
    jLookup (process_query p q) "query" = some (JValue.str q) := by
  constructor <;> simp [process_query, jKeys, jLookup, List.find?]

/-! ### Orchestration-loop theorems -/

theorem chatLoop_always_tools (engine : Engine) (p : Providers)
    (hE : ∀ h, (engine h).tool_calls ≠ []) :
    ∀ (fuel : Nat) (hist : List Msg),
      (chatLoop engine p fuel hist).answer = retryMsg ∧
      (chatLoop engine p fuel hist).queries.length = fuel := by
  intro fuel
  induction fuel with
  | zero => intro hist; exact ⟨rfl, rfl⟩
  | succ n ih =>
    intro hist
    have hne : (engine hist).tool_calls.isEmpty = false := by
      cases htc : (engine hist).tool_calls with
      | nil => exact absurd htc (hE hist)
      | cons tc rest => rfl
    constructor
    · simp only [chatLoop, hne, Bool.false_eq_true, if_false]
      exact (ih _).1
    · simp only [chatLoop, hne, Bool.false_eq_true, if_false, List.length_cons]
      rw [(ih _).2]

/-- C1: with a reasoning engine that always requests a tool and never gives a
plain answer, `chat` makes exactly 5 reasoning queries and returns the fixed
retry message. -/
theorem chat_always_tools_five_queries (engine : Engine) (p : Providers)
    (u : String) (hist : List Msg)
    (hE : ∀ h, (engine h).tool_calls ≠ [] ∧ (engine h).content = none) :
    (chat engine p u hist).answer = retryMsg ∧
    (chat engine p u hist).queries.length = 5 :=
  chatLoop_always_tools engine p (fun h => (hE h).1) max_iterations
    (hist ++ [Msg.user u])

/-- Witness for C1: the always-requesting engine stub on a fresh history. -/
theorem chat_always_tools_five_queries_witness :
    (∀ h, (alwaysToolEngine h).tool_calls ≠ [] ∧ (alwaysToolEngine h).content = none) ∧
    ((chat alwaysToolEngine stubProviders "hi" []).answer = retryMsg ∧
     (chat alwaysToolEngine stubProviders "hi" []).queries.length = 5) :=
  ⟨fun _ => ⟨by simp [alwaysToolEngine], rfl⟩,
   chat_always_tools_five_queries alwaysToolEngine stubProviders "hi" []
     (fun _ => ⟨by simp [alwaysToolEngine], rfl⟩)⟩

theorem chatLoop_immediate (engine : Engine) (p : Providers) (n : Nat)
    (hist : List Msg) (t : String)
    (htc : (engine hist).tool_calls = [])
    (hct : (engine hist).content = some t)
    (hne : t ≠ "") :
    (chatLoop engine p (n + 1) hist).answer = t ∧
    (chatLoop engine p (n + 1) hist).queries.length = 1 := by
  simp [chatLoop, htc, hct, hne]

/-- C8: with a reasoning engine that answers the first query with non-empty
plain text and no tool requests, `chat` makes exactly 1 reasoning query and
returns that text verbatim. -/
theorem chat_immediate_answer_one_query (engine : Engine) (p : Providers)
    (u : String) (hist : List Msg) (t : String)
    (htc : (engine (hist ++ [Msg.user u])).tool_calls = [])
    (hct : (engine (hist ++ [Msg.user u])).content = some t)
    (hne : t ≠ "") :
    (chat engine p u hist).answer = t ∧
    (chat engine p u hist).queries.length = 1 :=
  chatLoop_immediate engine p 4 (hist ++ [Msg.user u]) t htc hct hne

/-- Witness for C8: the immediately-answering engine stub. -/
theorem chat_immediate_answer_one_query_witness :
    (immediateEngine ([] ++ [Msg.user "hello"])).tool_calls = [] ∧
    (immediateEngine ([] ++ [Msg.user "hello"])).content = some "All done" ∧
    "All done" ≠ "" ∧
    ((chat immediateEngine stubProviders "hello" []).answer = "All done" ∧
     (chat immediateEngine stubProviders "hello" []).queries.length = 1) :=
  ⟨rfl, rfl, by decide,
   chat_immediate_answer_one_query immediateEngine stubProviders "hello" [] "All done"
     rfl rfl (by decide)⟩

theorem chatLoop_ok (engine : Engine) (p : Providers) :
    ∀ (fuel : Nat) (hist : List Msg), okHist hist →
      okHist (chatLoop engine p fuel hist).history ∧
      ∀ h ∈ (chatLoop engine p fuel hist).queries, okHist h := by
  intro fuel
  induction fuel with
  | zero => intro hist hok; exact ⟨hok, by simp [chatLoop]⟩
  | succ n ih =>
    intro hist hok
    cases htc : (engine hist).tool_calls.isEmpty with
    | true =>
      have htcl : (engine hist).tool_calls = [] := List.isEmpty_iff.mp htc
      have hh : okHist
          (hist ++ [Msg.assistant (engine hist).content (engine hist).tool_calls]) := by
        rw [okHist, runOk_append, hok, htcl]
        cases hc : (engine hist).content <;> simp [runOk]
      cases hc : (engine hist).content with
      | some c =>
        constructor
        · simpa only [chatLoop, htc, if_true, hc] using hh
        · simp only [chatLoop, htc, if_true, hc, List.mem_singleton]
          intro h hmem
          rw [hmem]
          exact hok
      | none =>
        constructor
        · simpa only [chatLoop, htc, if_true, hc] using hh
        · simp only [chatLoop, htc, if_true, hc, List.mem_singleton]
          intro h hmem
          rw [hmem]
          exact hok
    | false =>
      have hh2 : okHist
          ((hist ++ [Msg.assistant (engine hist).content (engine hist).tool_calls])
            ++ (engine hist).tool_calls.map (toolResultMsg p)) := by
        rw [okHist, List.append_assoc, runOk_append, hok]
        show runOk []
          (Msg.assistant (engine hist).content (engine hist).tool_calls
            :: (engine hist).tool_calls.map (toolResultMsg p)) = some []
        rw [show runOk []
            (Msg.assistant (engine hist).content (engine hist).tool_calls
              :: (engine hist).tool_calls.map (toolResultMsg p))
            = runOk ((engine hist).tool_calls.map (fun tc => (tc.id, tc.name)))
                ((engine hist).tool_calls.map (toolResultMsg p)) from rfl]
        exact runOk_toolResults p (engine hist).tool_calls
      obtain ⟨ih1, ih2⟩ := ih _ hh2
      constructor
      · simpa only [chatLoop, htc, Bool.false_eq_true, if_false] using ih1
      · simp only [chatLoop, htc, Bool.false_eq_true, if_false, List.mem_cons]
        intro h hmem
        rcases hmem with rfl | hmem
        · exact hok
        · exact ih2 h hmem

/-- C5: starting from a well-formed history, every history `chat` presents to
the reasoning engine, and the final history, satisfy `okHist`: each batch of
tool requests issued by an assistant turn is immediately followed by exactly
one correlated tool-result message per request, in request order — so every
request is resolved before the next reasoning query. -/
theorem chat_tool_results_correlated (engine : Engine) (p : Providers)
    (u : String) (hist : List Msg) (hok : okHist hist) :
    okHist (chat engine p u hist).history ∧
    ∀ h ∈ (chat engine p u hist).queries, okHist h := by
  have h0 : okHist (hist ++ [Msg.user u]) := by
    rw [okHist, runOk_append, hok]
    rfl
  exact chatLoop_ok engine p max_iterations (hist ++ [Msg.user u]) h0

/-- Witness for C5: a run that requests one tool then answers, from an empty
history. -/
theorem chat_tool_results_correlated_witness :
    okHist ([] : List Msg) ∧
    (okHist (chat oneToolThenAnswerEngine stubProviders "hi" []).history ∧
     ∀ h ∈ (chat oneToolThenAnswerEngine stubProviders "hi" []).queries, okHist h) :=
  ⟨rfl, chat_tool_results_correlated oneToolThenAnswerEngine stubProviders "hi" [] rfl⟩
